import Mathlib

/-!
Shallow embedding of the `gps-time-converter` core (`src/gps_time/converter.py`
and `src/gps_time/leap_second_table.py`).

Numeric model: Python `float` values are modelled as exact rationals (`ℚ`),
Python `int` values as `ℤ`.  Python's `int()` conversion truncates toward
zero (`pyInt`), Python's `//` on numbers is floored division and `%` is the
floored modulo (`pyFloorDiv`, `pyMod`).  Functions that `raise ValueError`
are modelled as `Option`-valued functions returning `none` on failure.
-/

namespace GpsTime

/-- Python `int(x)` applied to a real value: truncation toward zero. -/
def pyInt (q : ℚ) : ℤ := if 0 ≤ q then ⌊q⌋ else ⌈q⌉

/-- Python floored division `x // n` (used where the code converts the
result to an integer, which is the identity on the already-integral
quotient). -/
def pyFloorDiv (x n : ℚ) : ℤ := ⌊x / n⌋

/-- Python floored modulo `x % n`: the remainder of floored division,
lying in `[0, n)` for `n > 0`. -/
def pyMod (x n : ℚ) : ℚ := x - n * ⌊x / n⌋

/-- `GPS_EPOCH_MJD = 44244.0` -/
def GPS_EPOCH_MJD : ℚ := 44244.0

/-- `SECONDS_PER_WEEK = 604800.0` -/
def SECONDS_PER_WEEK : ℚ := 604800.0

/-- `SECONDS_PER_DAY = 86400.0` -/
def SECONDS_PER_DAY : ℚ := 86400.0

/-- `_is_leap_year` from `converter.py`. -/
def _is_leap_year (year : ℤ) : Bool :=
  (year % 4 == 0 && year % 100 != 0) || year % 400 == 0

/-- `_days_in_month` from `converter.py`. -/
def _days_in_month (year month : ℤ) : ℤ :=
  if month = 1 ∨ month = 3 ∨ month = 5 ∨ month = 7 ∨ month = 8 ∨ month = 10 ∨ month = 12 then 31
  else if month = 4 ∨ month = 6 ∨ month = 9 ∨ month = 11 then 30
  else if month = 2 then (if _is_leap_year year then 29 else 28)
  else 30

/-- `_validate_ymd_datetime` from `converter.py`: `true` when all range
checks pass, `false` where the code raises `ValueError`. -/
def _validate_ymd_datetime (year month day hour minute : ℤ) (second : ℚ) : Bool :=
  if ¬ (1 ≤ month ∧ month ≤ 12) then false
  else if ¬ (0 ≤ hour ∧ hour ≤ 23) then false
  else if ¬ (0 ≤ minute ∧ minute ≤ 59) then false
  else if ¬ (0 ≤ second ∧ second < 60) then false
  else if ¬ (1 ≤ day ∧ day ≤ _days_in_month year month) then false
  else true

/-- `ymd_to_mjd` from `converter.py`; `none` models the `ValueError` raised
by `_validate_ymd_datetime`. -/
def ymd_to_mjd (year month day hour minute : ℤ) (second : ℚ) : Option ℚ :=
  if _validate_ymd_datetime year month day hour minute second then
    let day_frac : ℚ := day + hour / 24 + minute / 1440 + second / 86400
    let ym : ℤ × ℤ := if month ≤ 2 then (year - 1, month + 12) else (year, month)
    let year_frac : ℚ := 365.25 * ym.1
    let frac : ℚ := year_frac - pyInt year_frac
    let a : ℤ := if frac = 0.5 then pyInt (year_frac + 0.5) else pyInt year_frac
    let b : ℤ := pyInt (30.6001 * (ym.2 + 1))
    some (a + b + day_frac - 679019)
  else none

/-- `mjd_to_ymd` from `converter.py`. -/
def mjd_to_ymd (mjd : ℚ) : ℤ × ℤ × ℤ × ℤ × ℤ × ℚ :=
  let jd : ℚ := mjd + 2400000.5
  let j0 : ℤ := pyInt (jd + 0.5)
  let f : ℚ := jd + 0.5 - j0
  let j : ℤ :=
    if j0 ≥ 2299161 then
      let a : ℤ := pyInt ((j0 - 1867216.25) / 36524.25)
      j0 + 1 + a - pyInt ((a : ℚ) / 4)
    else j0
  let b : ℤ := j + 1524
  let c : ℤ := pyInt (((b : ℚ) - 122.1) / 365.25)
  let d : ℤ := pyInt (365.25 * c)
  let e : ℤ := pyInt (((b - d : ℤ) : ℚ) / 30.6001)
  let day : ℤ := b - d - pyInt (30.6001 * e)
  let month : ℤ := if e < 14 then e - 1 else e - 13
  let year : ℤ := if month > 2 then c - 4716 else c - 4715
  let total_seconds : ℚ := f * 86400
  let hour : ℤ := pyFloorDiv total_seconds 3600
  let remaining : ℚ := pyMod total_seconds 3600
  let minute : ℤ := pyFloorDiv remaining 60
  let second : ℚ := pyMod remaining 60
  (year, month, day, hour, minute, second)

/-- `utc_to_bjt_datetime` from `converter.py` (UTC → Beijing Time, +8h). -/
def utc_to_bjt_datetime (year month day hour minute : ℤ) (second : ℚ) :
    Option (ℤ × ℤ × ℤ × ℤ × ℤ × ℚ) :=
  let total_seconds : ℚ := hour * 3600 + minute * 60 + second + 8 * 3600
  let day_offset : ℤ := pyFloorDiv total_seconds 86400
  let tod : ℚ := pyMod total_seconds 86400
  let new_hour : ℤ := pyFloorDiv tod 3600
  let remaining : ℚ := pyMod tod 3600
  let new_minute : ℤ := pyFloorDiv remaining 60
  let new_second : ℚ := pyMod remaining 60
  (ymd_to_mjd year month day 0 0 0).map fun mjd =>
    let t := mjd_to_ymd (mjd + day_offset)
    (t.1, t.2.1, t.2.2.1, new_hour, new_minute, new_second)

/-- `utc_to_gps_datetime` from `converter.py` (default `leap_seconds=18`). -/
def utc_to_gps_datetime (year month day hour minute : ℤ) (second : ℚ)
    (leap_seconds : ℤ := 18) : Option (ℤ × ℚ × ℤ) :=
  (ymd_to_mjd year month day hour minute second).map fun mjd =>
    let diff_days : ℚ := mjd - GPS_EPOCH_MJD
    let week : ℤ := pyFloorDiv diff_days 7
    let tow : ℚ := (diff_days - week * 7) * SECONDS_PER_DAY + leap_seconds
    let wt : ℤ × ℚ := if tow ≥ SECONDS_PER_WEEK then (week + 1, tow - SECONDS_PER_WEEK) else (week, tow)
    let dow : ℤ := pyFloorDiv wt.2 SECONDS_PER_DAY
    (wt.1, wt.2, dow)

/-- `gps_to_utc_datetime` from `converter.py` (default `leap_seconds=18`). -/
def gps_to_utc_datetime (week : ℤ) (tow : ℚ) (leap_seconds : ℤ := 18) :
    ℤ × ℤ × ℤ × ℤ × ℤ × ℚ :=
  let utc_tow : ℚ := tow - leap_seconds
  let wt : ℤ × ℚ := if utc_tow < 0 then (week - 1, utc_tow + 604800) else (week, utc_tow)
  let total_days : ℚ := wt.1 * 7 + wt.2 / 86400
  let mjd : ℚ := 44244 + total_days
  mjd_to_ymd mjd

/-- `bjt_to_utc_datetime` from `converter.py` (Beijing Time → UTC, −8h),
including the `if utc_seconds_of_day < 0` adjustment branch of the source. -/
def bjt_to_utc_datetime (year month day hour minute : ℤ) (second : ℚ) :
    Option (ℤ × ℤ × ℤ × ℤ × ℤ × ℚ) :=
  let bjt_total_seconds : ℚ := hour * 3600 + minute * 60 + second
  let utc_total_seconds : ℚ := bjt_total_seconds - 8 * 3600
  let day_offset0 : ℤ := pyFloorDiv utc_total_seconds 86400
  let sod0 : ℚ := pyMod utc_total_seconds 86400
  let ds : ℤ × ℚ := if sod0 < 0 then (day_offset0 - 1, sod0 + 86400) else (day_offset0, sod0)
  let utc_hour : ℤ := pyFloorDiv ds.2 3600
  let utc_minute : ℤ := pyFloorDiv (pyMod ds.2 3600) 60
  let utc_second : ℚ := pyMod ds.2 60
  (ymd_to_mjd year month day 0 0 0).map fun bjt_mjd =>
    let t := mjd_to_ymd (bjt_mjd + ds.1)
    (t.1, t.2.1, t.2.2.1, utc_hour, utc_minute, utc_second)

/-- The month/day search loop of `doy_to_ymd_with_fraction` (the
`for m in range(1, 13)` loop with its `for`/`else` clause). -/
def _doy_find : List ℤ → ℤ → ℤ → ℤ × ℤ
  | [], _, remaining => (12, remaining)
  | d :: rest, m, remaining =>
      if remaining ≤ d then (m, remaining) else _doy_find rest (m + 1) (remaining - d)

/-- `doy_to_ymd_with_fraction` from `converter.py`. -/
def doy_to_ymd_with_fraction (year : ℤ) (doy_fraction : ℚ) : ℤ × ℤ × ℤ × ℤ × ℤ × ℚ :=
  let doy : ℤ := pyInt doy_fraction
  let fraction : ℚ := doy_fraction - doy
  let month_days : List ℤ :=
    [31, if _is_leap_year year then 29 else 28, 31, 30, 31, 30, 31, 31, 30, 31, 30, 31]
  let md : ℤ × ℤ := _doy_find month_days 1 doy
  let total_seconds : ℚ := fraction * 86400
  let hour : ℤ := pyFloorDiv total_seconds 3600
  let remaining : ℚ := pyMod total_seconds 3600
  let minute : ℤ := pyFloorDiv remaining 60
  let second : ℚ := pyMod remaining 60
  (year, md.1, md.2, hour, minute, second)

/-- `datetime.date` ordering used by `LeapSecondTable.get_leap_second`:
lexicographic comparison of (year, month, day). -/
def dateLe (a b : ℤ × ℤ × ℤ) : Bool :=
  decide (a.1 < b.1) ||
    (decide (a.1 = b.1) &&
      (decide (a.2.1 < b.2.1) || (decide (a.2.1 = b.2.1) && decide (a.2.2 ≤ b.2.2))))

/-- Strict version of `dateLe` (lexicographic `<` on dates). -/
def dateLt (a b : ℤ × ℤ × ℤ) : Bool :=
  decide (a.1 < b.1) ||
    (decide (a.1 = b.1) &&
      (decide (a.2.1 < b.2.1) || (decide (a.2.1 = b.2.1) && decide (a.2.2 < b.2.2))))

/-- `LeapSecondTable.get_leap_second` from `leap_second_table.py`: the table
is the parsed `(valid_since, leap_second)` list; the query is a
(year, month, day) date.  `none` models the `IndexError` an empty table
would raise at `self.leap_seconds[0][1]`. -/
def get_leap_second (table : List ((ℤ × ℤ × ℤ) × ℤ)) (query : ℤ × ℤ × ℤ) : Option ℤ :=
  match table with
  | [] => none
  | first :: _ =>
      some (table.foldl
        (fun result r => if dateLe r.1 query then r.2 else result) first.2)

/-- Day delta of the spec's OffsetDayRoll helper: `floor(total / 86400)`. -/
def specDayDelta (total : ℚ) : ℤ := ⌊total / 86400⌋

/-- Remainder of the spec's OffsetDayRoll helper: `total mod 86400` under
floored modulo. -/
def specDayRem (total : ℚ) : ℚ := total - 86400 * ⌊total / 86400⌋

/-! ### Arithmetic facts about the floored division/modulo model -/

theorem pyMod_nonneg (x : ℚ) {n : ℚ} (hn : 0 < n) : 0 ≤ pyMod x n := by
  unfold pyMod
  have h1 : ((⌊x / n⌋ : ℚ)) ≤ x / n := Int.floor_le _
  have h2 := mul_le_mul_of_nonneg_left h1 hn.le
  rw [mul_div_cancel₀ x hn.ne'] at h2
  linarith

theorem pyMod_lt (x : ℚ) {n : ℚ} (hn : 0 < n) : pyMod x n < n := by
  unfold pyMod
  have h1 : x / n < (⌊x / n⌋ : ℚ) + 1 := Int.lt_floor_add_one _
  have h2 := mul_lt_mul_of_pos_left h1 hn
  rw [mul_div_cancel₀ x hn.ne'] at h2
  linarith

/-- Decomposing a remainder `r` into h/m/s the way `mjd_to_ymd` and
`utc_to_bjt_datetime` do (`second` computed from the 3600-remainder)
loses nothing: the fields recombine to `r`. -/
theorem hms_recombine (r : ℚ) :
    (pyFloorDiv r 3600 : ℚ) * 3600 + (pyFloorDiv (pyMod r 3600) 60 : ℚ) * 60
      + pyMod (pyMod r 3600) 60 = r := by
  unfold pyFloorDiv pyMod
  ring

/-- Decomposing a remainder `r` into h/m/s the way `bjt_to_utc_datetime`
does (`second = r % 60` computed from `r` itself) also recombines to `r`. -/
theorem hms_recombine_sec_of_total (r : ℚ) :
    (pyFloorDiv r 3600 : ℚ) * 3600 + (pyFloorDiv (pyMod r 3600) 60 : ℚ) * 60
      + pyMod r 60 = r := by
  unfold pyFloorDiv pyMod
  have key : ⌊(r - 3600 * (⌊r / 3600⌋ : ℚ)) / 60⌋ = ⌊r / 60⌋ - 60 * ⌊r / 3600⌋ := by
    have h : (r - 3600 * ((⌊r / 3600⌋ : ℤ) : ℚ)) / 60
        = r / 60 - ((60 * ⌊r / 3600⌋ : ℤ) : ℚ) := by
      push_cast
      ring
    rw [h, Int.floor_sub_int]
  rw [key]
  push_cast
  ring

/-- `ymd_to_mjd` fails (returns `none`) exactly when `_validate_ymd_datetime`
rejects the fields. -/
theorem ymd_to_mjd_eq_none_iff (y mo d h mi : ℤ) (s : ℚ) :
    ymd_to_mjd y mo d h mi s = none ↔ _validate_ymd_datetime y mo d h mi s = false := by
  unfold ymd_to_mjd
  rcases hv : _validate_ymd_datetime y mo d h mi s <;> simp [hv]

/-- `_validate_ymd_datetime` rejects exactly the out-of-range fields:
month outside [1,12], hour outside [0,23], minute outside [0,59], second
outside [0,60), or day outside [1, days-in-month]. -/
theorem validate_false_iff (y mo d h mi : ℤ) (s : ℚ) :
    _validate_ymd_datetime y mo d h mi s = false ↔
      ((mo < 1 ∨ 12 < mo) ∨ (h < 0 ∨ 23 < h) ∨ (mi < 0 ∨ 59 < mi) ∨
        (s < 0 ∨ 60 ≤ s) ∨ (d < 1 ∨ _days_in_month y mo < d)) := by
  unfold _validate_ymd_datetime
  split_ifs with h1 h2 h3 h4 h5
  · simp only [false_iff]
    rintro ((h | h) | (h | h) | (h | h) | (h | h) | (h | h)) <;>
      first | omega | linarith [h4.1, h4.2]
  · simp only [eq_self_iff_true, true_iff]
    exact Or.inr (Or.inr (Or.inr (Or.inr ((not_and_or.mp h5).imp not_le.mp not_le.mp))))
  · simp only [eq_self_iff_true, true_iff]
    exact Or.inr (Or.inr (Or.inr (Or.inl ((not_and_or.mp h4).imp not_le.mp not_lt.mp))))
  · simp only [eq_self_iff_true, true_iff]
    exact Or.inr (Or.inr (Or.inl ((not_and_or.mp h3).imp not_le.mp not_le.mp)))
  · simp only [eq_self_iff_true, true_iff]
    exact Or.inr (Or.inl ((not_and_or.mp h2).imp not_le.mp not_le.mp))
  · simp only [eq_self_iff_true, true_iff]
    exact Or.inl ((not_and_or.mp h1).imp not_le.mp not_le.mp)

/-! ### Claim theorems -/

/-- Claim C7: `ymd_to_mjd` fails with an out-of-range error exactly when a
field violates its bound (month outside [1,12], hour outside [0,23], minute
outside [0,59], second outside [0,60), or day outside
[1, daysInMonth(year, month)]), and in particular it fails for month 13,
day 0, day 32 in January, hour 25, minute 60, second 60, and 2023-02-29. -/
theorem c7_validation_exact :
    (∀ (year month day hour minute : ℤ) (second : ℚ),
        ymd_to_mjd year month day hour minute second = none ↔
          ((month < 1 ∨ 12 < month) ∨ (hour < 0 ∨ 23 < hour) ∨
            (minute < 0 ∨ 59 < minute) ∨ (second < 0 ∨ 60 ≤ second) ∨
            (day < 1 ∨ _days_in_month year month < day))) ∧
    ymd_to_mjd 2024 13 1 0 0 0 = none ∧
    ymd_to_mjd 2024 1 0 0 0 0 = none ∧
    ymd_to_mjd 2024 1 32 0 0 0 = none ∧
    ymd_to_mjd 2024 1 1 25 0 0 = none ∧
    ymd_to_mjd 2024 1 1 0 60 0 = none ∧
    ymd_to_mjd 2024 1 1 0 0 60 = none ∧
    ymd_to_mjd 2023 2 29 0 0 0 = none := by
  refine ⟨fun year month day hour minute second =>
    (ymd_to_mjd_eq_none_iff year month day hour minute second).trans
      (validate_false_iff year month day hour minute second),
    ?_, ?_, ?_, ?_, ?_, ?_, ?_⟩ <;>
    norm_num [ymd_to_mjd, _validate_ymd_datetime, _days_in_month, _is_leap_year]

/-- Claim C1 (code bug at 2023-01-01): `ymd_to_mjd` maps 2023-01-01 to
MJD 59946 although the true MJD of 2023-01-01 is 59945 (as `mjd_to_ymd`
itself confirms), so the civil round trip lands on 2023-01-02 and the
MJD-side round trip of 59945 returns 59946, an error of a full day. -/
theorem c1_mjd_roundtrip_bug :
    ymd_to_mjd 2023 1 1 0 0 0 = some 59946 ∧
    mjd_to_ymd 59946 = (2023, 1, 2, 0, 0, (0 : ℚ)) ∧
    mjd_to_ymd 59945 = (2023, 1, 1, 0, 0, (0 : ℚ)) := by
  refine ⟨?_, ?_, ?_⟩ <;>
    norm_num [ymd_to_mjd, mjd_to_ymd, _validate_ymd_datetime, _days_in_month,
      _is_leap_year, pyInt, pyFloorDiv, pyMod]

/-- Claim C2 (code bug at week 2214): GPS week 2214, TOW 0 (leap 0) maps to
UTC 2022-06-12 00:00:00, but converting that civil time back with the same
leap offset yields TOW 86400 and DOW 1 instead of TOW 0 and DOW 0, an error
of a full day caused by `ymd_to_mjd`. -/
theorem c2_gps_roundtrip_bug :
    gps_to_utc_datetime 2214 0 0 = (2022, 6, 12, 0, 0, (0 : ℚ)) ∧
    utc_to_gps_datetime 2022 6 12 0 0 0 0 = some (2214, 86400, 1) := by
  constructor <;>
    norm_num [gps_to_utc_datetime, utc_to_gps_datetime, ymd_to_mjd, mjd_to_ymd,
      _validate_ymd_datetime, _days_in_month, _is_leap_year, pyInt, pyFloorDiv,
      pyMod, GPS_EPOCH_MJD, SECONDS_PER_WEEK, SECONDS_PER_DAY]

/-- Claim C4: the GPS epoch anchors — `ymd_to_mjd` maps 1980-01-06 00:00:00
to exactly MJD 44244, and `utc_to_gps_datetime` with leap 0 maps it to
week 0, TOW 0.0, DOW 0. -/
theorem c4_gps_epoch_anchor :
    ymd_to_mjd 1980 1 6 0 0 0 = some 44244 ∧
    utc_to_gps_datetime 1980 1 6 0 0 0 0 = some (0, (0 : ℚ), 0) := by
  constructor <;>
    norm_num [utc_to_gps_datetime, ymd_to_mjd, _validate_ymd_datetime,
      _days_in_month, _is_leap_year, pyInt, pyFloorDiv, pyMod, GPS_EPOCH_MJD,
      SECONDS_PER_WEEK, SECONDS_PER_DAY]

/-- Claim C5 (code bug at 2022-06-15): the two cited rollover examples hold
(2024-01-15 23:00 → 2024-01-16 07:00 and 2023-12-31 20:00 → 2024-01-01
04:00), but the round trip fails for 2022-06-15 12:30:45: `utc_to_bjt`
already lands a day late (2022-06-16) and `bjt_to_utc` of that result
returns 2022-06-17 12:30:45 instead of the original time. -/
theorem c5_bjt_roundtrip_bug :
    utc_to_bjt_datetime 2024 1 15 23 0 0 = some (2024, 1, 16, 7, 0, (0 : ℚ)) ∧
    utc_to_bjt_datetime 2023 12 31 20 0 0 = some (2024, 1, 1, 4, 0, (0 : ℚ)) ∧
    utc_to_bjt_datetime 2022 6 15 12 30 45 = some (2022, 6, 16, 20, 30, (45 : ℚ)) ∧
    bjt_to_utc_datetime 2022 6 16 20 30 45 = some (2022, 6, 17, 12, 30, (45 : ℚ)) := by
  refine ⟨?_, ?_, ?_, ?_⟩ <;>
    norm_num [utc_to_bjt_datetime, bjt_to_utc_datetime, ymd_to_mjd, mjd_to_ymd,
      _validate_ymd_datetime, _days_in_month, _is_leap_year, pyInt, pyFloorDiv,
      pyMod]

/-- Claim C10: for any year and any fractional DOY strictly between 0 and 1,
`doy_to_ymd_with_fraction` returns month 1 and day 0 without any error, an
output rejected (day < 1) by the shared field validation used by the other
converters. -/
theorem c10_doy_day_zero :
    ∀ (year : ℤ) (f : ℚ), 0 < f → f < 1 →
      (doy_to_ymd_with_fraction year f).2.1 = 1 ∧
      (doy_to_ymd_with_fraction year f).2.2.1 = 0 ∧
      ∀ (hh mm : ℤ) (ss : ℚ), _validate_ymd_datetime year 1 0 hh mm ss = false := by
  intro year f h0 h1
  have hfloor : pyInt f = 0 := by
    unfold pyInt
    rw [if_pos h0.le]
    exact Int.floor_eq_zero_iff.mpr ⟨h0.le, h1⟩
  refine ⟨?_, ?_, ?_⟩
  · unfold doy_to_ymd_with_fraction
    rw [hfloor]
    norm_num [_doy_find]
  · unfold doy_to_ymd_with_fraction
    rw [hfloor]
    norm_num [_doy_find]
  · intro hh mm ss
    exact (validate_false_iff year 1 0 hh mm ss).mpr
      (Or.inr (Or.inr (Or.inr (Or.inr (Or.inl (by norm_num))))))

/-- Witness for C10 at year 2024, fraction 1/2. -/
theorem c10_witness :
    (0 : ℚ) < 1/2 ∧ (1/2 : ℚ) < 1 ∧
      ((doy_to_ymd_with_fraction 2024 (1/2)).2.1 = 1 ∧
       (doy_to_ymd_with_fraction 2024 (1/2)).2.2.1 = 0 ∧
       ∀ (hh mm : ℤ) (ss : ℚ), _validate_ymd_datetime 2024 1 0 hh mm ss = false) :=
  ⟨one_half_pos, one_half_lt_one, c10_doy_day_zero 2024 (1/2) one_half_pos one_half_lt_one⟩

/-- The scan of `get_leap_second` keeps the offset of the last record (in
scan order) whose effective date is `≤` the query, falling back to the
initial value when no record matches. -/
theorem foldl_last_match (q : ℤ × ℤ × ℤ) :
    ∀ (l : List ((ℤ × ℤ × ℤ) × ℤ)) (init : ℤ),
      l.foldl (fun result r => if dateLe r.1 q then r.2 else result) init
        = (((l.filter fun r => dateLe r.1 q).getLast?).map Prod.snd).getD init := by
  intro l
  induction l with
  | nil => intro init; rfl
  | cons r t ih =>
      intro init
      rw [List.foldl_cons, List.filter_cons]
      by_cases hb : dateLe r.1 q
      · rw [if_pos hb, if_pos hb, ih r.2]
        cases hft : (t.filter fun r => dateLe r.1 q) with
        | nil => simp
        | cons x xs =>
            rw [List.getLast?_cons_cons,
              List.getLast?_eq_getLast _ (List.cons_ne_nil x xs)]
            rfl
      · rw [if_neg hb, if_neg hb, ih init]
/-- Claim C3: for a non-empty leap-second table in ascending effective-date
order, `get_leap_second` returns the offset of the last record whose
effective date is `≤` the query date, and when the query precedes every
record it returns the first (oldest) record's offset. -/
theorem c3_leap_lookup :
    ∀ (first : (ℤ × ℤ × ℤ) × ℤ) (rest : List ((ℤ × ℤ × ℤ) × ℤ)) (query : ℤ × ℤ × ℤ),
      List.Chain' (fun a b => dateLt a.1 b.1 = true) (first :: rest) →
      get_leap_second (first :: rest) query =
        some (((((first :: rest).filter fun r => dateLe r.1 query).getLast?).map
          Prod.snd).getD first.2) ∧
      ((∀ r ∈ first :: rest, ¬ dateLe r.1 query = true) →
        get_leap_second (first :: rest) query = some first.2) := by
  intro first rest query _
  have hmain : get_leap_second (first :: rest) query =
      some (((((first :: rest).filter fun r => dateLe r.1 query).getLast?).map
        Prod.snd).getD first.2) := by
    have h0 : get_leap_second (first :: rest) query
        = some ((first :: rest).foldl
            (fun result r => if dateLe r.1 query then r.2 else result) first.2) := rfl
    rw [h0, foldl_last_match]
  refine ⟨hmain, fun hnone => ?_⟩
  have hfil : ((first :: rest).filter fun r => dateLe r.1 query) = [] :=
    List.filter_eq_nil_iff.mpr (fun r hr => by simpa using hnone r hr)
  rw [hmain, hfil]
  rfl

/-- Witness for C3 on the spec's example table 1980-01-06→0, 1981-07-01→1,
queried at 1981-01-01 (earlier record wins) and 1979-01-01 (before the
table). -/
theorem c3_witness :
    List.Chain' (fun a b => dateLt a.1 b.1 = true)
        [(((1980 : ℤ), (1 : ℤ), (6 : ℤ)), (0 : ℤ)), (((1981 : ℤ), (7 : ℤ), (1 : ℤ)), (1 : ℤ))] ∧
    get_leap_second [(((1980 : ℤ), (1 : ℤ), (6 : ℤ)), (0 : ℤ)), (((1981 : ℤ), (7 : ℤ), (1 : ℤ)), (1 : ℤ))]
        ((1981 : ℤ), (1 : ℤ), (1 : ℤ)) = some 0 ∧
    get_leap_second [(((1980 : ℤ), (1 : ℤ), (6 : ℤ)), (0 : ℤ)), (((1981 : ℤ), (7 : ℤ), (1 : ℤ)), (1 : ℤ))]
        ((1979 : ℤ), (1 : ℤ), (1 : ℤ)) = some 0 :=
  ⟨by simp [List.chain'_cons, List.chain'_singleton, dateLt],
    ((c3_leap_lookup (((1980 : ℤ), (1 : ℤ), (6 : ℤ)), (0 : ℤ))
      [(((1981 : ℤ), (7 : ℤ), (1 : ℤ)), (1 : ℤ))] ((1981 : ℤ), (1 : ℤ), (1 : ℤ))
      (by simp [List.chain'_cons, List.chain'_singleton, dateLt])).1).trans (by decide),
    (c3_leap_lookup (((1980 : ℤ), (1 : ℤ), (6 : ℤ)), (0 : ℤ))
      [(((1981 : ℤ), (7 : ℤ), (1 : ℤ)), (1 : ℤ))] ((1979 : ℤ), (1 : ℤ), (1 : ℤ))
      (by simp [List.chain'_cons, List.chain'_singleton, dateLt])).2 (by decide)⟩

/-- Claim C8: for a fixed civil time, increasing the leap-second argument
of `utc_to_gps_datetime` by a positive delta increases the combined
`week*604800 + tow` value by exactly that delta (so `tow` grows by delta
modulo week-boundary wraparound). -/
theorem c8_leap_monotonic :
    ∀ (year month day hour minute : ℤ) (second : ℚ) (L δ w w' dw dw' : ℤ) (t t' : ℚ),
      0 < δ →
      utc_to_gps_datetime year month day hour minute second L = some (w, t, dw) →
      utc_to_gps_datetime year month day hour minute second (L + δ) = some (w', t', dw') →
      (w' : ℚ) * 604800 + t' = (w : ℚ) * 604800 + t + (δ : ℚ) := by
  intro y mo d h mi s L δ w w' dw dw' t t' hδ h1 h2
  cases hM : ymd_to_mjd y mo d h mi s with
  | none =>
      unfold utc_to_gps_datetime at h1
      rw [hM] at h1
      simp at h1
  | some M =>
      unfold utc_to_gps_datetime at h1 h2
      rw [hM] at h1 h2
      simp only [Option.map_some', Option.some.injEq, GPS_EPOCH_MJD, SECONDS_PER_DAY,
        SECONDS_PER_WEEK] at h1 h2
      split_ifs at h1 h2 <;>
        (rw [Prod.mk.injEq, Prod.mk.injEq] at h1 h2;
         obtain ⟨hw, ht, -⟩ := h1; obtain ⟨hw', ht', -⟩ := h2;
         subst hw ht hw' ht'; push_cast; ring)
/-- `gps_to_utc_datetime` converts the MJD `44244 + (week*604800 + tow - leap)/86400`
regardless of whether the underflow (week-borrow) branch fires. -/
theorem gps_to_utc_datetime_eq (w : ℤ) (t : ℚ) (L : ℤ) :
    gps_to_utc_datetime w t L
      = mjd_to_ymd (44244 + ((w : ℚ) * 604800 + t - L) / 86400) := by
  unfold gps_to_utc_datetime
  simp only []
  split_ifs with hcase <;> congr 1 <;> push_cast <;> ring

/-- Claim C9: both `utc_to_gps_datetime` and `gps_to_utc_datetime` fill an
omitted leap-second argument with the built-in constant 18 (no table
lookup), and using the defaults in both directions of a round trip cancels
the offset: the composition equals the plain `mjd_to_ymd ∘ ymd_to_mjd`
round trip of the civil time. -/
theorem c9_default_leap :
    (∀ (week : ℤ) (tow : ℚ), gps_to_utc_datetime week tow = gps_to_utc_datetime week tow 18) ∧
    (∀ (year month day hour minute : ℤ) (second : ℚ),
        utc_to_gps_datetime year month day hour minute second =
          utc_to_gps_datetime year month day hour minute second 18) ∧
    (∀ (year month day hour minute : ℤ) (second : ℚ) (M : ℚ) (w dw : ℤ) (t : ℚ),
        ymd_to_mjd year month day hour minute second = some M →
        utc_to_gps_datetime year month day hour minute second = some (w, t, dw) →
        gps_to_utc_datetime w t = mjd_to_ymd M) := by
  refine ⟨fun _ _ => rfl, fun _ _ _ _ _ _ => rfl, ?_⟩
  intro y mo d h mi s M w dw t hM hg
  unfold utc_to_gps_datetime at hg
  rw [hM] at hg
  simp only [Option.map_some', Option.some.injEq, GPS_EPOCH_MJD, SECONDS_PER_DAY,
    SECONDS_PER_WEEK] at hg
  rw [gps_to_utc_datetime_eq]
  split_ifs at hg <;>
    (rw [Prod.mk.injEq, Prod.mk.injEq] at hg;
     obtain ⟨hw, ht, -⟩ := hg;
     subst hw ht;
     congr 1;
     push_cast;
     ring)
/-- The OffsetDayRoll remainder is exactly Python's floored `% 86400`. -/
theorem specDayRem_eq_pyMod (total : ℚ) : specDayRem total = pyMod total 86400 := rfl

/-- Claim C6: in both BJT directions (offsets +28800 and −28800), the day
delta is `floor(total/86400)` and the carried remainder is the floored
`total mod 86400`, hence in `[0, 86400)` even for negative totals (the
negative-remainder patch branch of `bjt_to_utc_datetime` never fires); the
output h/m/s recombine exactly to that remainder, and the output date is
obtained by shifting the MJD by the day delta and reconverting, not by
editing month/day fields. -/
theorem c6_offset_day_roll :
    ∀ (year month day hour minute : ℤ) (second : ℚ) (M total totalB : ℚ),
      ymd_to_mjd year month day 0 0 0 = some M →
      0 ≤ hour → hour ≤ 23 → 0 ≤ minute → minute ≤ 59 → 0 ≤ second → second < 60 →
      total = (hour : ℚ) * 3600 + minute * 60 + second + 28800 →
      totalB = (hour : ℚ) * 3600 + minute * 60 + second - 28800 →
      (∀ (Y Mo D H Mi : ℤ) (S : ℚ),
          utc_to_bjt_datetime year month day hour minute second = some (Y, Mo, D, H, Mi, S) →
          (0 ≤ specDayRem total ∧ specDayRem total < 86400) ∧
          (H : ℚ) * 3600 + (Mi : ℚ) * 60 + S = specDayRem total ∧
          Y = (mjd_to_ymd (M + specDayDelta total)).1 ∧
          Mo = (mjd_to_ymd (M + specDayDelta total)).2.1 ∧
          D = (mjd_to_ymd (M + specDayDelta total)).2.2.1) ∧
      (∀ (Y Mo D H Mi : ℤ) (S : ℚ),
          bjt_to_utc_datetime year month day hour minute second = some (Y, Mo, D, H, Mi, S) →
          (0 ≤ specDayRem totalB ∧ specDayRem totalB < 86400) ∧
          (H : ℚ) * 3600 + (Mi : ℚ) * 60 + S = specDayRem totalB ∧
          Y = (mjd_to_ymd (M + specDayDelta totalB)).1 ∧
          Mo = (mjd_to_ymd (M + specDayDelta totalB)).2.1 ∧
          D = (mjd_to_ymd (M + specDayDelta totalB)).2.2.1) := by
  intro year month day hour minute second M total totalB hM h1 h2 h3 h4 h5 h6 htot htotB
  have hn : (0 : ℚ) < 86400 := by norm_num
  constructor
  · intro Y Mo D H Mi S hres
    unfold utc_to_bjt_datetime at hres
    rw [hM] at hres
    simp only [Option.map_some', Option.some.injEq] at hres
    have htot' : (hour : ℚ) * 3600 + minute * 60 + second + 8 * 3600 = total := by
      rw [htot]; ring
    rw [htot'] at hres
    rw [Prod.mk.injEq, Prod.mk.injEq, Prod.mk.injEq, Prod.mk.injEq, Prod.mk.injEq] at hres
    obtain ⟨hY, hMo, hD, hH, hMi, hS⟩ := hres
    subst hY hMo hD hH hMi hS
    refine ⟨⟨?_, ?_⟩, ?_, rfl, rfl, rfl⟩
    · rw [specDayRem_eq_pyMod]; exact pyMod_nonneg total hn
    · rw [specDayRem_eq_pyMod]; exact pyMod_lt total hn
    · rw [specDayRem_eq_pyMod]; exact hms_recombine (pyMod total 86400)
  · intro Y Mo D H Mi S hres
    unfold bjt_to_utc_datetime at hres
    rw [hM] at hres
    simp only [Option.map_some', Option.some.injEq] at hres
    have htotB' : (hour : ℚ) * 3600 + minute * 60 + second - 8 * 3600 = totalB := by
      rw [htotB]; ring
    rw [htotB'] at hres
    rw [if_neg (not_lt.mpr (pyMod_nonneg totalB hn))] at hres
    rw [Prod.mk.injEq, Prod.mk.injEq, Prod.mk.injEq, Prod.mk.injEq, Prod.mk.injEq] at hres
    obtain ⟨hY, hMo, hD, hH, hMi, hS⟩ := hres
    subst hY hMo hD hH hMi hS
    refine ⟨⟨?_, ?_⟩, ?_, rfl, rfl, rfl⟩
    · rw [specDayRem_eq_pyMod]; exact pyMod_nonneg totalB hn
    · rw [specDayRem_eq_pyMod]; exact pyMod_lt totalB hn
    · rw [specDayRem_eq_pyMod]; exact hms_recombine_sec_of_total (pyMod totalB 86400)
/-- Evaluation: `ymd_to_mjd` at the GPS epoch. -/
theorem ymd_to_mjd_epoch_eval : ymd_to_mjd 1980 1 6 0 0 0 = some 44244 := by
  norm_num [ymd_to_mjd, _validate_ymd_datetime, _days_in_month, _is_leap_year, pyInt]

/-- Evaluation: `utc_to_gps_datetime` at the GPS epoch with leap 0. -/
theorem utc_to_gps_epoch_eval0 : utc_to_gps_datetime 1980 1 6 0 0 0 0 = some (0, (0 : ℚ), 0) := by
  norm_num [utc_to_gps_datetime, ymd_to_mjd, _validate_ymd_datetime, _days_in_month,
    _is_leap_year, pyInt, pyFloorDiv, pyMod, GPS_EPOCH_MJD, SECONDS_PER_WEEK, SECONDS_PER_DAY]

/-- Evaluation: `utc_to_gps_datetime` at the GPS epoch with leap 18. -/
theorem utc_to_gps_epoch_eval18 : utc_to_gps_datetime 1980 1 6 0 0 0 18 = some (0, (18 : ℚ), 0) := by
  norm_num [utc_to_gps_datetime, ymd_to_mjd, _validate_ymd_datetime, _days_in_month,
    _is_leap_year, pyInt, pyFloorDiv, pyMod, GPS_EPOCH_MJD, SECONDS_PER_WEEK, SECONDS_PER_DAY]

/-- Evaluation: `ymd_to_mjd` at 2024-01-15. -/
theorem ymd_to_mjd_20240115_eval : ymd_to_mjd 2024 1 15 0 0 0 = some 60324 := by
  norm_num [ymd_to_mjd, _validate_ymd_datetime, _days_in_month, _is_leap_year, pyInt]

/-- Evaluation: `utc_to_bjt_datetime` at 2024-01-15 23:00:00 UTC. -/
theorem utc_to_bjt_20240115_eval :
    utc_to_bjt_datetime 2024 1 15 23 0 0 = some (2024, 1, 16, 7, 0, (0 : ℚ)) := by
  norm_num [utc_to_bjt_datetime, ymd_to_mjd, mjd_to_ymd, _validate_ymd_datetime,
    _days_in_month, _is_leap_year, pyInt, pyFloorDiv, pyMod]

/-- Evaluation: `bjt_to_utc_datetime` at 2024-01-15 23:00:00 BJT. -/
theorem bjt_to_utc_20240115_eval :
    bjt_to_utc_datetime 2024 1 15 23 0 0 = some (2024, 1, 15, 15, 0, (0 : ℚ)) := by
  norm_num [bjt_to_utc_datetime, ymd_to_mjd, mjd_to_ymd, _validate_ymd_datetime,
    _days_in_month, _is_leap_year, pyInt, pyFloorDiv, pyMod]

/-- Trivial rational bound used to discharge witness hypotheses. -/
theorem q_zero_le_zero : (0 : ℚ) ≤ 0 := le_refl 0

/-- Trivial rational bound used to discharge witness hypotheses. -/
theorem q_zero_lt_sixty : (0 : ℚ) < 60 := by norm_num

/-- Evaluation: total seconds of 23:00:00 plus the +8h offset. -/
theorem c6_total_fwd_eval :
    (111600 : ℚ) = ((23 : ℤ) : ℚ) * 3600 + ((0 : ℤ) : ℚ) * 60 + (0 : ℚ) + 28800 := by
  norm_num

/-- Evaluation: total seconds of 23:00:00 minus the 8h offset. -/
theorem c6_total_bwd_eval :
    (54000 : ℚ) = ((23 : ℤ) : ℚ) * 3600 + ((0 : ℤ) : ℚ) * 60 + (0 : ℚ) - 28800 := by
  norm_num

/-- Witness for C6 at UTC/BJT 2024-01-15 23:00:00. -/
theorem c6_witness :
    ymd_to_mjd 2024 1 15 0 0 0 = some 60324 ∧
    ((0 : ℤ) ≤ 23 ∧ (23 : ℤ) ≤ 23 ∧ (0 : ℤ) ≤ 0 ∧ (0 : ℤ) ≤ 59 ∧ (0 : ℚ) ≤ 0 ∧ (0 : ℚ) < 60) ∧
    ((0 ≤ specDayRem 111600 ∧ specDayRem 111600 < 86400) ∧
      ((7 : ℤ) : ℚ) * 3600 + ((0 : ℤ) : ℚ) * 60 + (0 : ℚ) = specDayRem 111600 ∧
      (2024 : ℤ) = (mjd_to_ymd (60324 + specDayDelta 111600)).1 ∧
      (1 : ℤ) = (mjd_to_ymd (60324 + specDayDelta 111600)).2.1 ∧
      (16 : ℤ) = (mjd_to_ymd (60324 + specDayDelta 111600)).2.2.1) ∧
    ((0 ≤ specDayRem 54000 ∧ specDayRem 54000 < 86400) ∧
      ((15 : ℤ) : ℚ) * 3600 + ((0 : ℤ) : ℚ) * 60 + (0 : ℚ) = specDayRem 54000 ∧
      (2024 : ℤ) = (mjd_to_ymd (60324 + specDayDelta 54000)).1 ∧
      (1 : ℤ) = (mjd_to_ymd (60324 + specDayDelta 54000)).2.1 ∧
      (15 : ℤ) = (mjd_to_ymd (60324 + specDayDelta 54000)).2.2.1) :=
  ⟨ymd_to_mjd_20240115_eval,
   ⟨by decide, by decide, by decide, by decide, q_zero_le_zero, q_zero_lt_sixty⟩,
   (c6_offset_day_roll 2024 1 15 23 0 0 60324 111600 54000 ymd_to_mjd_20240115_eval
      (by decide) (by decide) (by decide) (by decide) q_zero_le_zero q_zero_lt_sixty
      c6_total_fwd_eval c6_total_bwd_eval).1 2024 1 16 7 0 0 utc_to_bjt_20240115_eval,
   (c6_offset_day_roll 2024 1 15 23 0 0 60324 111600 54000 ymd_to_mjd_20240115_eval
      (by decide) (by decide) (by decide) (by decide) q_zero_le_zero q_zero_lt_sixty
      c6_total_fwd_eval c6_total_bwd_eval).2 2024 1 15 15 0 0 bjt_to_utc_20240115_eval⟩

/-- Witness for C8 at the GPS epoch with leap 0 increased by 18. -/
theorem c8_witness :
    (0 : ℤ) < 18 ∧
    utc_to_gps_datetime 1980 1 6 0 0 0 0 = some (0, (0 : ℚ), 0) ∧
    utc_to_gps_datetime 1980 1 6 0 0 0 (0 + 18) = some (0, (18 : ℚ), 0) ∧
    ((0 : ℤ) : ℚ) * 604800 + (18 : ℚ) = ((0 : ℤ) : ℚ) * 604800 + (0 : ℚ) + ((18 : ℤ) : ℚ) :=
  ⟨by decide, utc_to_gps_epoch_eval0, utc_to_gps_epoch_eval18,
    c8_leap_monotonic 1980 1 6 0 0 0 0 18 0 0 0 0 0 18 (by decide)
      utc_to_gps_epoch_eval0 utc_to_gps_epoch_eval18⟩

/-- Witness for C9 at the GPS epoch. -/
theorem c9_witness :
    ymd_to_mjd 1980 1 6 0 0 0 = some 44244 ∧
    utc_to_gps_datetime 1980 1 6 0 0 0 = some (0, (18 : ℚ), 0) ∧
    gps_to_utc_datetime 0 18 = mjd_to_ymd 44244 :=
  ⟨ymd_to_mjd_epoch_eval, utc_to_gps_epoch_eval18,
    c9_default_leap.2.2 1980 1 6 0 0 0 44244 0 0 18 ymd_to_mjd_epoch_eval
      utc_to_gps_epoch_eval18⟩

end GpsTime
